import Mathlib

/-!
Shallow embedding of the Prex PCI IDE/ATA disk driver
(src/bsp/drv/dev/block/hdd.c) and proofs about the behaviour its
specification claims.

Machine model: the driver targets 32-bit machines (i386/ppc), so the C
types are modelled as: int = signed 32-bit (Lean Int together with
explicit wrapping where C arithmetic wraps), size_t = unsigned 32-bit
(Lean Nat with explicit % 2^32 where overflow matters), uint64_t =
unsigned 64-bit.  Multi-byte fields read out of raw buffers via memcpy
or pointer casts are interpreted little-endian, matching the x86 hosts
the driver runs on and the byte order the spec ascribes to those
fields.  Hardware is modelled by an oracle giving, for each submitted
command, either an interrupted sleep or the (status, ERR) register pair
observed by the interrupt service thread at completion.
-/

namespace Hdd

/-! Constants from hdd.c and the driver framework headers. -/

/-- SECTOR_SIZE, hdd.c line 31. -/
def SECTOR_SIZE : Nat := 512

/-- BUFFER_LENGTH, hdd.c line 90: the bounce buffer is 64 KiB. -/
def BUFFER_LENGTH : Nat := 65536

/-- BUFFER_LENGTH_IN_SECTORS, hdd.c line 91 (= 128). -/
def BUFFER_LENGTH_IN_SECTORS : Nat := BUFFER_LENGTH / SECTOR_SIZE

/-- ata_status_flag_t, hdd.c lines 72-77. -/
def ATA_STATUS_FLAG_ERROR : Nat := 0x01

/-- ata_status_flag_t, hdd.c lines 72-77. -/
def ATA_STATUS_FLAG_DRQ : Nat := 0x08

/-- ata_status_flag_t, hdd.c lines 72-77. -/
def ATA_STATUS_FLAG_DEVICE_FAILURE : Nat := 0x20

/-- ata_status_flag_t, hdd.c lines 72-77. -/
def ATA_STATUS_FLAG_BUSY : Nat := 0x80

/-- ATA command-block register offsets, hdd.c lines 35-52. -/
def ATA_REG_DATA : Nat := 0

/-- ATA command-block register offsets, hdd.c lines 35-52. -/
def ATA_REG_ERR : Nat := 1

/-- ATA command-block register offsets, hdd.c lines 35-52. -/
def ATA_REG_SECTOR_COUNT : Nat := 2

/-- ATA command-block register offsets, hdd.c lines 35-52. -/
def ATA_REG_LBA_LOW : Nat := 3

/-- ATA command-block register offsets, hdd.c lines 35-52. -/
def ATA_REG_LBA_MID : Nat := 4

/-- ATA command-block register offsets, hdd.c lines 35-52. -/
def ATA_REG_LBA_HIGH : Nat := 5

/-- ATA command-block register offsets, hdd.c lines 35-52. -/
def ATA_REG_DISK_SELECT : Nat := 6

/-- ATA command-block register offsets, hdd.c lines 35-52. -/
def ATA_REG_COMMAND_STATUS : Nat := 7

/-- errno value EIO from the framework headers (BSD-derived value 5). -/
def EIO_errno : Nat := 5

/-- errno value EINTR from the framework headers (BSD-derived value 4). -/
def EINTR : Nat := 4

/-- errno value EFAULT from the framework headers (BSD-derived value 14). -/
def EFAULT : Nat := 14

/-- errno value EINVAL from the framework headers (BSD-derived value 22). -/
def EINVAL : Nat := 22

/-- Modelled from the spec: the framework's nonzero ISR return code
requesting that the IST be dispatched ("ISR returns INT_CONTINUE to
request IST dispatch or 0 to ignore", spec section 6).  The framework
header defining the concrete value is not part of src/; the value is
only required to be nonzero and is taken to be 2 as in Prex. -/
def INT_CONTINUE : Nat := 2

/-! Machine-arithmetic helpers for the 32-bit target. -/

/-- Truncation to an unsigned 32-bit value. -/
def wrap32 (n : Nat) : Nat := n % 2 ^ 32

/-- Bit pattern (as a Nat) of a signed 32-bit int, i.e. the value the C
compiler uses when an int is converted to an unsigned 32-bit type. -/
def intToU32 (i : Int) : Nat := (i % (2 ^ 32 : Nat)).toNat

/-- Bit pattern (as a Nat) of a signed value converted to uint64_t. -/
def intToU64 (i : Int) : Nat := (i % (2 ^ 64 : Nat)).toNat

/-- Reinterpretation of an unsigned 32-bit pattern as a signed int
(two's complement), i.e. the result of storing unsigned arithmetic back
into a C int on the 32-bit target. -/
def u32ToInt (n : Nat) : Int :=
  if n % 2 ^ 32 < 2 ^ 31 then ((n % 2 ^ 32 : Nat) : Int)
  else ((n % 2 ^ 32 : Nat) : Int) - 2 ^ 32

/-- Little-endian 16-bit value at a byte offset of a raw buffer,
modelled as a function from byte index to byte value. -/
def le16 (b : Nat → Nat) (off : Nat) : Nat :=
  b off + 2 ^ 8 * b (off + 1)

/-- Little-endian 32-bit value at a byte offset of a raw buffer. -/
def le32 (b : Nat → Nat) (off : Nat) : Nat :=
  b off + 2 ^ 8 * b (off + 1) + 2 ^ 16 * b (off + 2) + 2 ^ 24 * b (off + 3)

/-- Little-endian 64-bit value at a byte offset of a raw buffer. -/
def le64 (b : Nat → Nat) (off : Nat) : Nat :=
  le32 b off + 2 ^ 32 * le32 b (off + 4)

/-! Data model: struct ata_partition, struct ata_disk and
struct ata_device_handle (hdd.c lines 96-153).  Only the fields the
read path and the probing code consult are carried; device names are
byte strings modelled as lists of characters. -/

/-- struct ata_partition, hdd.c lines 109-121. -/
structure ata_partition where
  system_id : Nat
  start_lba : Nat
  sector_count : Nat
  devname : List Char
deriving DecidableEq

/-- struct ata_disk, hdd.c lines 126-153 (the fields the read path
uses: the LBA48 sector count, the slave select bit and the name). -/
structure ata_disk where
  addressable_sector_count : Nat
  slave : Nat
  devname : List Char
deriving DecidableEq

/-- struct ata_device_handle, hdd.c lines 96-105: a kernel device
handle names either a whole disk or a partition of a disk. -/
inductive ata_device_handle where
  | wholedisk (d : ata_disk)
  | partition (d : ata_disk) (p : ata_partition)
deriving DecidableEq

/-- irp command codes (IO_READ / IO_WRITE / IO_NONE from driver.h). -/
inductive io_cmd where
  | ioRead
  | ioWrite
  | ioNone
deriving DecidableEq

/-! The Register Gateway / Request Engine behaviour. -/

/-- hdc_isr, hdd.c lines 266-275: reads altstatus and requests IST
dispatch exactly when DRQ, DEVICE_FAILURE or ERROR is set. -/
def hdc_isr (status : Nat) : Nat :=
  if status &&& (ATA_STATUS_FLAG_DRQ ||| ATA_STATUS_FLAG_DEVICE_FAILURE |||
      ATA_STATUS_FLAG_ERROR) ≠ 0 then
    INT_CONTINUE
  else
    0

/-- Observable effect of one run of the interrupt service thread. -/
structure ist_effect where
  error : Nat
  pio_byte_count : Nat
  wakes : Bool
  clears_active_disk : Bool
deriving DecidableEq

/-- hdc_ist, hdd.c lines 279-307, for a read request of blksz sectors:
reads the command/status register; on ERROR or DEVICE_FAILURE records
the composed error word and wakes the waiter without transferring any
data; otherwise drains blksz * SECTOR_SIZE bytes by PIO, records
error = 0 and wakes the waiter.  active_disk is cleared first in both
paths. -/
def hdc_ist (status err_reg blksz : Nat) : ist_effect :=
  if status &&& (ATA_STATUS_FLAG_ERROR ||| ATA_STATUS_FLAG_DEVICE_FAILURE) ≠ 0 then
    { error := 0x80000000 ||| (status <<< 16) ||| err_reg
      pio_byte_count := 0
      wakes := true
      clears_active_disk := true }
  else
    { error := 0
      pio_byte_count := blksz * SECTOR_SIZE
      wakes := true
      clears_active_disk := true }

/-- hdd_setup_io, hdd.c lines 312-349: the trace of (register, value)
port writes issued for one command.  The IO_WRITE and invalid-command
arms panic in the source, modelled as none. -/
def hdd_setup_io_trace (slave : Nat) (cmd : io_cmd) (lba : Nat)
    (sector_count : Nat) : Option (List (Nat × Nat)) :=
  match cmd with
  | io_cmd.ioRead =>
      some
        [(ATA_REG_DISK_SELECT, 0x40 ||| (slave <<< 4)),
         (ATA_REG_SECTOR_COUNT, (sector_count >>> 8) &&& 0xff),
         (ATA_REG_LBA_LOW, (lba >>> 24) &&& 0xff),
         (ATA_REG_LBA_MID, (lba >>> 32) &&& 0xff),
         (ATA_REG_LBA_HIGH, (lba >>> 40) &&& 0xff),
         (ATA_REG_SECTOR_COUNT, sector_count &&& 0xff),
         (ATA_REG_LBA_LOW, lba &&& 0xff),
         (ATA_REG_LBA_MID, (lba >>> 8) &&& 0xff),
         (ATA_REG_LBA_HIGH, (lba >>> 16) &&& 0xff),
         (ATA_REG_COMMAND_STATUS, 0x24)]
  | _ => none

/-- Hardware outcome of one submitted command, as seen by the waiting
caller in hdd_rw: either the sleep was interrupted by a signal, or the
IST ran with the given command/status and ERR register contents. -/
inductive chunk_outcome where
  | interrupted
  | completed (status err_reg : Nat)
deriving DecidableEq

/-- Error code hdd_rw (hdd.c lines 704-728) returns for one submission
of blksz sectors: EINTR when the sleep was interrupted, otherwise the
irp error recorded by the IST. -/
def hdd_rw_err (o : chunk_outcome) (blksz : Nat) : Nat :=
  match o with
  | chunk_outcome.interrupted => EINTR
  | chunk_outcome.completed status err_reg => (hdc_ist status err_reg blksz).error

/-- adjust_blkno, hdd.c lines 730-752: resolves a device handle to the
block number passed on to the hardware and the sector limit used by
the bounds check.  For a partition the int blkno has the u32 start_lba
added with C int arithmetic (32-bit wrap), and the limit is the
partition's sector_count; for a whole disk blkno is unchanged and the
limit is the u64 addressable_sector_count truncated to size_t. -/
def adjust_blkno : ata_device_handle → Int → Int × Nat
  | ata_device_handle.wholedisk d, blkno =>
      (blkno, wrap32 d.addressable_sector_count)
  | ata_device_handle.partition _ p, blkno =>
      (u32ToInt (intToU32 blkno + p.start_lba), p.sector_count)

/-- The bounds test at hdd.c line 762:
(blkno < 0) || (blkno + sector_count >= sector_limit).  The second
comparison is C unsigned 32-bit arithmetic because sector_count and
sector_limit have type size_t. -/
def hdd_bounds_reject (blkno : Int) (sector_count sector_limit : Nat) : Bool :=
  decide (blkno < 0) ||
    decide (sector_limit ≤ wrap32 (intToU32 blkno + sector_count))

/-- The while loop of hdd_read, hdd.c lines 772-792.  oracle i is the
hardware outcome of the i-th submission (counting from i at entry);
blkno is the running C int block number, sector_count the sectors still
to read and transferred_total the bytes already copied out.  The result
is (return value, final transferred_total, list of submissions), each
submission being the (lba, sector count) pair handed to hdd_setup_io
via hdd_rw — the int blkno converted to uint64_t.  On a chunk error the
loop prints, stores transferred_total into *nbyte and returns EIO. -/
def hdd_read_loop (oracle : Nat → chunk_outcome) (i : Nat) (blkno : Int)
    (sector_count transferred_total : Nat) : Nat × Nat × List (Nat × Nat) :=
  if h : sector_count = 0 then
    (0, transferred_total, [])
  else
    let transfer_sector_count :=
      if sector_count > BUFFER_LENGTH_IN_SECTORS then BUFFER_LENGTH_IN_SECTORS
      else sector_count
    let sub : Nat × Nat := (intToU64 blkno, transfer_sector_count)
    let err := hdd_rw_err (oracle i) transfer_sector_count
    if err ≠ 0 then
      (EIO_errno, transferred_total, [sub])
    else
      let rest := hdd_read_loop oracle (i + 1)
        (u32ToInt (intToU32 blkno + transfer_sector_count))
        (sector_count - transfer_sector_count)
        (transferred_total + SECTOR_SIZE * transfer_sector_count)
      (rest.1, rest.2.1, sub :: rest.2.2)
termination_by sector_count
decreasing_by
  simp only [BUFFER_LENGTH_IN_SECTORS, BUFFER_LENGTH, SECTOR_SIZE]
  split <;> omega

/-- hdd_read, hdd.c lines 754-796.  map_fails models kmem_map returning
NULL.  The result triple is (return value, final value of *nbyte, list
of (lba, sector count) submissions to the request engine).  Note that
the EIO and EFAULT early returns leave *nbyte at its caller-supplied
value. -/
def hdd_read (oracle : Nat → chunk_outcome) (map_fails : Bool)
    (dev : ata_device_handle) (nbyte : Nat) (blkno : Int) :
    Nat × Nat × List (Nat × Nat) :=
  let sector_count := nbyte / SECTOR_SIZE
  let a := adjust_blkno dev blkno
  if hdd_bounds_reject a.1 sector_count a.2 then
    (EIO_errno, nbyte, [])
  else if map_fails then
    (EFAULT, nbyte, [])
  else
    hdd_read_loop oracle 0 a.1 sector_count 0

/-- hdd_write, hdd.c lines 798-801: unconditional EINVAL stub. -/
def hdd_write : Nat := EINVAL

/-! The Identification and Geometry Extractor (setup_disk) and the
Partition Scanner (setup_partitions). -/

/-- Geometry facts extracted from the identification space. -/
structure disk_geometry where
  lba_supported : Bool
  dma_supported : Bool
  sector_capacity : Nat
  addressable_sector_count : Nat
deriving DecidableEq

/-- The identification-space parsing part of setup_disk, hdd.c lines
483-516: a disk that answers IDENTIFY is rejected (none) unless bit 1
(LBA) and bit 0 (DMA) of byte 99 are both set; otherwise its geometry
is extracted, with addressable_sector_count taken from the LBA48 field
at bytes 200..208 exactly when the LBA28 count at bytes 120..124 reads
0x0fffffff. -/
def setup_disk (idspace : Nat → Nat) : Option disk_geometry :=
  let lba_supported : Bool := decide (idspace 99 &&& 2 ≠ 0)
  let dma_supported : Bool := decide (idspace 99 &&& 1 ≠ 0)
  if lba_supported = false then none
  else if dma_supported = false then none
  else
    let lba28_count := le32 idspace 120
    some
      { lba_supported := lba_supported
        dma_supported := dma_supported
        sector_capacity := le32 idspace 114
        addressable_sector_count :=
          if lba28_count = 0x0fffffff then le64 idspace 200 else lba28_count }

/-- system_id byte of MBR slot k (offset 4 of the 16-byte entry at
0x1be + 16*k), hdd.c lines 384-391. -/
def mbr_system_id (sector0 : Nat → Nat) (k : Nat) : Nat :=
  sector0 (0x1be + 16 * k + 4)

/-- start_lba field of MBR slot k (LE u32 at offset 8 of the entry). -/
def mbr_start_lba (sector0 : Nat → Nat) (k : Nat) : Nat :=
  le32 sector0 (0x1be + 16 * k + 8)

/-- sector_count field of MBR slot k (LE u32 at offset 12 of the
entry). -/
def mbr_sector_count (sector0 : Nat → Nat) (k : Nat) : Nat :=
  le32 sector0 (0x1be + 16 * k + 12)

/-- The slot-occupancy test of hdd.c line 394: a slot is skipped when
start_lba, sector_count or system_id is zero. -/
def mbr_slot_allocated (sector0 : Nat → Nat) (k : Nat) : Bool :=
  decide (mbr_start_lba sector0 k ≠ 0) &&
    decide (mbr_sector_count sector0 k ≠ 0) &&
    decide (mbr_system_id sector0 k ≠ 0)

/-- Device name given to the partition in slot k, hdd.c lines 410-417:
the disk's name followed by a p and the two decimal digits of k.
Character zero is code 48. -/
def partition_devname (disk_devname : List Char) (k : Nat) : List Char :=
  disk_devname ++ ['p', Char.ofNat (48 + k / 10), Char.ofNat (48 + k % 10)]

/-- The ata_partition record built for MBR slot k, hdd.c lines
399-417. -/
def mk_partition (disk_devname : List Char) (sector0 : Nat → Nat)
    (k : Nat) : ata_partition :=
  { system_id := mbr_system_id sector0 k
    start_lba := mbr_start_lba sector0 k
    sector_count := mbr_sector_count sector0 k
    devname := partition_devname disk_devname k }

/-- setup_partitions, hdd.c lines 372-434, given the 512-byte sector-0
buffer read during setup: when the 16-bit little-endian value at offset
SECTOR_SIZE - 2 equals 0xaa55, the four slots 0..3 are scanned and
each allocated slot yields a partition record; otherwise no partition
is created. -/
def setup_partitions (disk_devname : List Char) (sector0 : Nat → Nat) :
    List ata_partition :=
  if le16 sector0 (SECTOR_SIZE - 2) = 0xaa55 then
    (List.range 4).filterMap fun k =>
      if mbr_slot_allocated sector0 k then some (mk_partition disk_devname sector0 k)
      else none
  else []

/-! Specification-side helper functions used to state the claims about
the read loop.  They are written from the spec's wording (chunk size is
min(remaining, 128); the transferred prefix is the bytes of the chunks
completed before the first failure). -/

/-- Per-submission sector counts the spec demands: repeatedly take
min(remaining, BUFFER_LENGTH_IN_SECTORS). -/
def chunk_sizes (n : Nat) : List Nat :=
  if h : n = 0 then []
  else
    min n BUFFER_LENGTH_IN_SECTORS ::
      chunk_sizes (n - min n BUFFER_LENGTH_IN_SECTORS)
termination_by n
decreasing_by
  simp only [BUFFER_LENGTH_IN_SECTORS, BUFFER_LENGTH, SECTOR_SIZE]
  omega

/-- The (lba, sector count) submissions a fully successful read of n
sectors starting at the given running block number performs. -/
def read_submissions (blkno : Int) (n : Nat) : List (Nat × Nat) :=
  if h : n = 0 then []
  else
    let c := min n BUFFER_LENGTH_IN_SECTORS
    (intToU64 blkno, c) ::
      read_submissions (u32ToInt (intToU32 blkno + c)) (n - c)
termination_by n
decreasing_by
  simp only [BUFFER_LENGTH_IN_SECTORS, BUFFER_LENGTH, SECTOR_SIZE]
  omega

/-- Bytes belonging to the chunks that complete without error before
the first failing chunk, for a read of n sectors whose i-th submission
onwards is answered by the oracle. -/
def prefix_bytes (oracle : Nat → chunk_outcome) (i n : Nat) : Nat :=
  if h : n = 0 then 0
  else
    let c := min n BUFFER_LENGTH_IN_SECTORS
    if hdd_rw_err (oracle i) c ≠ 0 then 0
    else SECTOR_SIZE * c + prefix_bytes oracle (i + 1) (n - c)
termination_by n
decreasing_by
  simp only [BUFFER_LENGTH_IN_SECTORS, BUFFER_LENGTH, SECTOR_SIZE]
  omega

/-- Identification space of the witness disk: LBA and DMA capable
(byte 99 = 3), LBA28 count saturated at 0x0fffffff, LBA48 count 2^32
(little-endian 1 at byte 204). -/
def c7_idspace : Nat → Nat := fun i =>
  if i = 99 then 3
  else if i = 120 ∨ i = 121 ∨ i = 122 then 0xff
  else if i = 123 then 0x0f
  else if i = 204 then 1
  else 0

/-- Geometry setup_disk extracts from c7_idspace. -/
def c7_geometry : disk_geometry :=
  { lba_supported := true
    dma_supported := true
    sector_capacity := 0
    addressable_sector_count := 4294967296 }

/-- Oracle under which every submission completes cleanly: status 0x58
has none of ERROR or DEVICE_FAILURE set. -/
def ok_oracle : Nat → chunk_outcome := fun _ => chunk_outcome.completed 0x58 0

/-- Oracle under which every submission completes with the ERROR status
bit set (status 0x41) and ERR register contents 4. -/
def err_oracle : Nat → chunk_outcome := fun _ => chunk_outcome.completed 0x41 4

/-- A concrete whole disk used in witnesses: one million addressable
sectors. -/
def w_disk : ata_disk := ⟨1000000, 0, ['h', 'd', '0', 'd', '0']⟩

/-- A concrete partition used in witnesses: starts at sector 2048,
10000 sectors long. -/
def w_part : ata_partition :=
  ⟨0x83, 2048, 10000, ['h', 'd', '0', 'd', '0', 'p', '0', '0']⟩

/-- A small partition exhibiting the bounds-check discrepancy: it
starts at sector 5 of the disk and is 10 sectors long. -/
def small_part : ata_partition :=
  ⟨0x83, 5, 10, ['h', 'd', '0', 'd', '0', 'p', '0', '1']⟩

/-- A partition whose start_lba is large enough that adding a caller
block number wraps C int arithmetic: it starts at sector 0xC0000000
and is 100 sectors long. -/
def wrap_part : ata_partition :=
  ⟨0x83, 0xC0000000, 100, ['h', 'd', '0', 'd', '0', 'p', '0', '2']⟩

/-! General lemmas about the read loop. -/

/-- The chunk size chosen by the source's conditional expression is
min(remaining, BUFFER_LENGTH_IN_SECTORS). -/
theorem transfer_sector_count_eq_min (n : Nat) :
    (if n > BUFFER_LENGTH_IN_SECTORS then BUFFER_LENGTH_IN_SECTORS else n) =
      min n BUFFER_LENGTH_IN_SECTORS := by
  simp only [min_def]
  split <;> split <;> omega

/-- A chunk whose submission fails ends the loop at once: the loop
returns EIO, leaves transferred_total as it was, and the failing
submission is the last one recorded. -/
theorem hdd_read_loop_error_step (oracle : Nat → chunk_outcome) (i : Nat) (b : Int)
    (n t : Nat) (hn : n ≠ 0)
    (he : hdd_rw_err (oracle i) (min n BUFFER_LENGTH_IN_SECTORS) ≠ 0) :
    hdd_read_loop oracle i b n t =
      (EIO_errno, t, [(intToU64 b, min n BUFFER_LENGTH_IN_SECTORS)]) := by
  rw [hdd_read_loop.eq_def]
  simp only [hn, dite_false, transfer_sector_count_eq_min, he, ite_true, ne_eq,
    not_false_iff, if_pos]

/-- When the bounds check passes and the buffer maps, hdd_read is the
loop started at the adjusted block number with transferred_total 0. -/
theorem hdd_read_eq_loop (oracle : Nat → chunk_outcome) (dev : ata_device_handle)
    (nbyte : Nat) (b : Int)
    (hb : hdd_bounds_reject (adjust_blkno dev b).1 (nbyte / SECTOR_SIZE)
      (adjust_blkno dev b).2 = false) :
    hdd_read oracle false dev nbyte b =
      hdd_read_loop oracle 0 (adjust_blkno dev b).1 (nbyte / SECTOR_SIZE) 0 := by
  simp only [hdd_read, hb, Bool.false_eq_true, if_false]

/-- A loop in which every submission succeeds returns 0, adds exactly
SECTOR_SIZE bytes per sector to transferred_total, and submits the
chunks described by read_submissions. -/
theorem hdd_read_loop_success (oracle : Nat → chunk_outcome)
    (hsucc : ∀ i bz, hdd_rw_err (oracle i) bz = 0) :
    ∀ n i b t, hdd_read_loop oracle i b n t =
      (0, t + SECTOR_SIZE * n, read_submissions b n) := by
  intro n
  induction n using Nat.strong_induction_on with
  | _ n ih =>
    intro i b t
    rw [hdd_read_loop.eq_def, read_submissions.eq_def]
    by_cases hn : n = 0
    · simp [hn]
    · have hc1 : 1 ≤ min n BUFFER_LENGTH_IN_SECTORS := by
        simp only [BUFFER_LENGTH_IN_SECTORS, BUFFER_LENGTH, SECTOR_SIZE]
        omega
      have hcn : min n BUFFER_LENGTH_IN_SECTORS ≤ n := Nat.min_le_left _ _
      simp only [hn, dite_false, transfer_sector_count_eq_min, hsucc, ne_eq,
        not_true_eq_false, if_false, ite_false]
      rw [ih (n - min n BUFFER_LENGTH_IN_SECTORS) (by omega)]
      refine Prod.ext rfl (Prod.ext ?_ rfl)
      show t + SECTOR_SIZE * min n BUFFER_LENGTH_IN_SECTORS +
          SECTOR_SIZE * (n - min n BUFFER_LENGTH_IN_SECTORS) = t + SECTOR_SIZE * n
      have : SECTOR_SIZE * min n BUFFER_LENGTH_IN_SECTORS +
          SECTOR_SIZE * (n - min n BUFFER_LENGTH_IN_SECTORS) = SECTOR_SIZE * n := by
        rw [← Nat.mul_add]
        congr 1
        omega
      omega

/-- Whatever the hardware does, the loop's final transferred_total is
the entry value plus the bytes of the chunks completed before the
first failure. -/
theorem hdd_read_loop_nbyte (oracle : Nat → chunk_outcome) :
    ∀ n i b t, (hdd_read_loop oracle i b n t).2.1 = t + prefix_bytes oracle i n := by
  intro n
  induction n using Nat.strong_induction_on with
  | _ n ih =>
    intro i b t
    rw [hdd_read_loop.eq_def, prefix_bytes.eq_def]
    by_cases hn : n = 0
    · simp [hn]
    · have hc1 : 1 ≤ min n BUFFER_LENGTH_IN_SECTORS := by
        simp only [BUFFER_LENGTH_IN_SECTORS, BUFFER_LENGTH, SECTOR_SIZE]
        omega
      simp only [hn, dite_false, transfer_sector_count_eq_min]
      by_cases he : hdd_rw_err (oracle i) (min n BUFFER_LENGTH_IN_SECTORS) ≠ 0
      · simp [he]
      · simp only [he, if_false, ite_false]
        rw [ih (n - min n BUFFER_LENGTH_IN_SECTORS) (by omega)]
        omega

/-- A loop run over a nonzero sector count always records, as its
first submission, the entry block number converted to uint64_t. -/
theorem hdd_read_loop_head (oracle : Nat → chunk_outcome) (i : Nat) (b : Int)
    (n t : Nat) (hn : n ≠ 0) :
    ∃ c rest, (hdd_read_loop oracle i b n t).2.2 = (intToU64 b, c) :: rest := by
  rw [hdd_read_loop.eq_def]
  simp only [hn, dite_false, transfer_sector_count_eq_min]
  by_cases he : hdd_rw_err (oracle i) (min n BUFFER_LENGTH_IN_SECTORS) ≠ 0
  · simp only [he, ite_true, ne_eq, not_false_iff, if_pos]
    exact ⟨_, _, rfl⟩
  · have he0 : hdd_rw_err (oracle i) (min n BUFFER_LENGTH_IN_SECTORS) = 0 := by omega
    simp only [he0, ne_eq, not_true_eq_false, if_false, ite_false]
    exact ⟨_, _, rfl⟩

/-- The loop over zero sectors does nothing. -/
theorem hdd_read_loop_zero (oracle : Nat → chunk_outcome) (i : Nat) (b : Int)
    (t : Nat) : hdd_read_loop oracle i b 0 t = (0, t, []) := by
  rw [hdd_read_loop.eq_def]
  simp

/-- The per-submission sector counts of a fully successful read are
the spec's chunk sizes. -/
theorem read_submissions_counts :
    ∀ n b, (read_submissions b n).map Prod.snd = chunk_sizes n := by
  intro n
  induction n using Nat.strong_induction_on with
  | _ n ih =>
    intro b
    rw [read_submissions.eq_def, chunk_sizes.eq_def]
    by_cases hn : n = 0
    · simp [hn]
    · have hc1 : 1 ≤ min n BUFFER_LENGTH_IN_SECTORS := by
        simp only [BUFFER_LENGTH_IN_SECTORS, BUFFER_LENGTH, SECTOR_SIZE]
        omega
      simp only [hn, dite_false, List.map_cons]
      rw [ih (n - min n BUFFER_LENGTH_IN_SECTORS) (by omega)]

/-- The spec's chunk sizes sum to the full sector count. -/
theorem chunk_sizes_sum : ∀ n, (chunk_sizes n).sum = n := by
  intro n
  induction n using Nat.strong_induction_on with
  | _ n ih =>
    rw [chunk_sizes.eq_def]
    by_cases hn : n = 0
    · simp [hn]
    · have hc1 : 1 ≤ min n BUFFER_LENGTH_IN_SECTORS := by
        simp only [BUFFER_LENGTH_IN_SECTORS, BUFFER_LENGTH, SECTOR_SIZE]
        omega
      have hcn : min n BUFFER_LENGTH_IN_SECTORS ≤ n := Nat.min_le_left _ _
      simp only [hn, dite_false, List.sum_cons]
      rw [ih (n - min n BUFFER_LENGTH_IN_SECTORS) (by omega)]
      omega

/-- There are exactly ceil(n / 128) spec chunks. -/
theorem chunk_sizes_length : ∀ n, (chunk_sizes n).length = (n + 127) / 128 := by
  intro n
  induction n using Nat.strong_induction_on with
  | _ n ih =>
    rw [chunk_sizes.eq_def]
    by_cases hn : n = 0
    · simp [hn]
    · have hBL : BUFFER_LENGTH_IN_SECTORS = 128 := by
        simp [BUFFER_LENGTH_IN_SECTORS, BUFFER_LENGTH, SECTOR_SIZE]
      have hc1 : 1 ≤ min n BUFFER_LENGTH_IN_SECTORS := by
        rw [hBL]
        omega
      simp only [hn, dite_false, List.length_cons]
      rw [ih (n - min n BUFFER_LENGTH_IN_SECTORS) (by omega), hBL]
      rw [hBL] at hc1
      omega

/-- A passed bounds check means the adjusted block number was not
negative. -/
theorem bounds_ok_nonneg {b : Int} {n l : Nat}
    (h : hdd_bounds_reject b n l = false) : 0 ≤ b := by
  simp only [hdd_bounds_reject, Bool.or_eq_false_iff, decide_eq_false_iff_not] at h
  omega

/-- If a call to hdd_read submitted anything to the request engine,
then the bounds check passed, the buffer mapped, at least one full
sector was requested, and the first submission carries the adjusted
block number converted to uint64_t. -/
theorem hdd_read_trace_shape (oracle : Nat → chunk_outcome) (map_fails : Bool)
    (dev : ata_device_handle) (nbyte : Nat) (b : Int)
    (h : (hdd_read oracle map_fails dev nbyte b).2.2 ≠ []) :
    hdd_bounds_reject (adjust_blkno dev b).1 (nbyte / SECTOR_SIZE)
      (adjust_blkno dev b).2 = false ∧
    map_fails = false ∧
    nbyte / SECTOR_SIZE ≠ 0 ∧
    ∃ c rest, (hdd_read oracle map_fails dev nbyte b).2.2 =
      (intToU64 (adjust_blkno dev b).1, c) :: rest := by
  by_cases hb : hdd_bounds_reject (adjust_blkno dev b).1 (nbyte / SECTOR_SIZE)
      (adjust_blkno dev b).2
  · exfalso
    apply h
    simp [hdd_read, hb]
  · by_cases hm : map_fails
    · exfalso
      apply h
      simp [hdd_read, hb, hm]
    · rw [Bool.not_eq_true] at hm
      subst hm
      rw [hdd_read_eq_loop oracle dev nbyte b (by simpa using hb)] at h ⊢
      by_cases hn : nbyte / SECTOR_SIZE = 0
      · exfalso
        apply h
        rw [hn, hdd_read_loop_zero]
      · exact ⟨by simpa using hb, rfl, hn,
          hdd_read_loop_head oracle 0 (adjust_blkno dev b).1 (nbyte / SECTOR_SIZE) 0 hn⟩

/-- C int addition of a nonneg-range size to an int in range, when the
mathematical sum still fits a signed 32-bit int, equals the
mathematical sum. -/
theorem u32ToInt_add_of_range (b : Int) (S : Nat) (hb : -(2 ^ 31) ≤ b)
    (hsum : b + S < 2 ^ 31) :
    u32ToInt (intToU32 b + S) = b + S := by
  simp only [u32ToInt, intToU32]
  split <;> omega

/-- Conversion of a nonnegative in-range int to uint64_t is just its
natural value. -/
theorem intToU64_of_nonneg (i : Int) (h0 : 0 ≤ i) (h : i < 2 ^ 31) :
    intToU64 i = i.toNat := by
  simp only [intToU64]
  omega

/-- A bitwise or of naturals is zero exactly when both sides are. -/
theorem or_eq_zero_iff_both (a b : Nat) : a ||| b = 0 ↔ a = 0 ∧ b = 0 := by
  constructor
  · intro h
    constructor
    · apply Nat.eq_of_testBit_eq
      intro i
      have hh := congrArg (fun x => Nat.testBit x i) h
      simp only [Nat.testBit_or, Nat.zero_testBit, Bool.or_eq_false_iff] at hh
      simp [Nat.zero_testBit, hh.1]
    · apply Nat.eq_of_testBit_eq
      intro i
      have hh := congrArg (fun x => Nat.testBit x i) h
      simp only [Nat.testBit_or, Nat.zero_testBit, Bool.or_eq_false_iff] at hh
      simp [Nat.zero_testBit, hh.2]
  · rintro ⟨rfl, rfl⟩
    rfl

/-- Masking against a combined mask is nonzero exactly when masking
against one of the combined bits is. -/
theorem and_or_mask_ne_zero (x m1 m2 : Nat) :
    x &&& (m1 ||| m2) ≠ 0 ↔ x &&& m1 ≠ 0 ∨ x &&& m2 ≠ 0 := by
  rw [Nat.and_or_distrib_left, ne_eq, or_eq_zero_iff_both]
  tauto

/-- C2 (confirmed): for every issued read command of (lba, count), the
command-block register writes after DISK_SELECT are exactly the nine
LBA48 writes, in order: SECTOR_COUNT gets the high count byte, then
LBA_LOW/MID/HIGH get lba bytes 3, 4, 5; then SECTOR_COUNT gets the low
count byte and LBA_LOW/MID/HIGH get lba bytes 0, 1, 2; finally the
command/status register gets READ SECTORS EXT (0x24). -/
theorem claim_C2 (slave lba count : Nat) :
    ∃ t, hdd_setup_io_trace slave io_cmd.ioRead lba count = some t ∧
      t.head? = some (ATA_REG_DISK_SELECT, 0x40 ||| (slave <<< 4)) ∧
      t.tail =
        [(ATA_REG_SECTOR_COUNT, (count >>> 8) &&& 0xff),
         (ATA_REG_LBA_LOW, (lba >>> 24) &&& 0xff),
         (ATA_REG_LBA_MID, (lba >>> 32) &&& 0xff),
         (ATA_REG_LBA_HIGH, (lba >>> 40) &&& 0xff),
         (ATA_REG_SECTOR_COUNT, count &&& 0xff),
         (ATA_REG_LBA_LOW, lba &&& 0xff),
         (ATA_REG_LBA_MID, (lba >>> 8) &&& 0xff),
         (ATA_REG_LBA_HIGH, (lba >>> 16) &&& 0xff),
         (ATA_REG_COMMAND_STATUS, 0x24)] :=
  ⟨_, rfl, rfl, rfl⟩

/-- C9 (confirmed): the ISR returns INT_CONTINUE, dispatching the IST,
exactly when at least one of DRQ (0x08), DEVICE_FAILURE (0x20) or
ERROR (0x01) is set in the status it read, and returns 0 (IST not
dispatched) exactly otherwise. -/
theorem claim_C9 (status : Nat) :
    (hdc_isr status = INT_CONTINUE ↔
      (status &&& ATA_STATUS_FLAG_DRQ ≠ 0 ∨
        status &&& ATA_STATUS_FLAG_DEVICE_FAILURE ≠ 0 ∨
        status &&& ATA_STATUS_FLAG_ERROR ≠ 0)) ∧
    (hdc_isr status = 0 ↔
      ¬(status &&& ATA_STATUS_FLAG_DRQ ≠ 0 ∨
        status &&& ATA_STATUS_FLAG_DEVICE_FAILURE ≠ 0 ∨
        status &&& ATA_STATUS_FLAG_ERROR ≠ 0)) := by
  have hmask : status &&& (ATA_STATUS_FLAG_DRQ ||| ATA_STATUS_FLAG_DEVICE_FAILURE |||
      ATA_STATUS_FLAG_ERROR) ≠ 0 ↔
      (status &&& ATA_STATUS_FLAG_DRQ ≠ 0 ∨
        status &&& ATA_STATUS_FLAG_DEVICE_FAILURE ≠ 0 ∨
        status &&& ATA_STATUS_FLAG_ERROR ≠ 0) := by
    rw [and_or_mask_ne_zero, and_or_mask_ne_zero]
    tauto
  unfold hdc_isr
  rw [← hmask]
  split
  case isTrue hc => simp [hc, INT_CONTINUE]
  case isFalse hc => simp [hc, INT_CONTINUE]

/-- C7 (confirmed): for a disk that identifies successfully, when the
32-bit little-endian LBA28 count at identification-space bytes 120..124
equals 0x0fffffff, addressable_sector_count is the 64-bit little-endian
value at bytes 200..208; otherwise it is the LBA28 count itself. -/
theorem claim_C7 (idspace : Nat → Nat) (g : disk_geometry)
    (h : setup_disk idspace = some g) :
    (le32 idspace 120 = 0x0fffffff →
      g.addressable_sector_count = le64 idspace 200) ∧
    (le32 idspace 120 ≠ 0x0fffffff →
      g.addressable_sector_count = le32 idspace 120) := by
  rw [setup_disk] at h
  simp only [] at h
  split at h
  · exact absurd h (by simp)
  · split at h
    · exact absurd h (by simp)
    · rw [Option.some.injEq] at h
      subst h
      constructor
      · intro hc
        simp [hc]
      · intro hc
        simp [hc]

/-- Witness for C7: a concrete disk with a saturated LBA28 count whose
addressable_sector_count is taken from the LBA48 field. -/
theorem claim_C7_witness :
    (le32 c7_idspace 120 = 0x0fffffff →
      c7_geometry.addressable_sector_count = le64 c7_idspace 200) ∧
    (le32 c7_idspace 120 ≠ 0x0fffffff →
      c7_geometry.addressable_sector_count = le32 c7_idspace 120) :=
  claim_C7 c7_idspace c7_geometry (by decide)

/-- C8 (confirmed): the partition scanner creates partitions only when
the 16-bit little-endian value at offset 510 of sector 0 is 0xaa55; it
examines exactly the four 16-byte entries at 0x1be..0x1fe, skips every
entry whose start_lba, sector_count or system_id is zero, and the
partition made from slot k carries the entry's fields and the disk's
devname followed by p and the two decimal digits of k. -/
theorem claim_C8 (dn : List Char) (s : Nat → Nat) (p : ata_partition) :
    p ∈ setup_partitions dn s ↔
      (le16 s 510 = 0xaa55 ∧
        ∃ k, k < 4 ∧
          le32 s (0x1be + 16 * k + 8) ≠ 0 ∧
          le32 s (0x1be + 16 * k + 12) ≠ 0 ∧
          s (0x1be + 16 * k + 4) ≠ 0 ∧
          p = { system_id := s (0x1be + 16 * k + 4)
                start_lba := le32 s (0x1be + 16 * k + 8)
                sector_count := le32 s (0x1be + 16 * k + 12)
                devname := dn ++
                  ['p', Char.ofNat (48 + k / 10), Char.ofNat (48 + k % 10)] }) := by
  unfold setup_partitions
  have h510 : SECTOR_SIZE - 2 = 510 := rfl
  rw [h510]
  split
  case isTrue hsig =>
    simp only [hsig, true_and, List.mem_filterMap, List.mem_range]
    constructor
    · rintro ⟨k, hk, hsome⟩
      by_cases halloc : mbr_slot_allocated s k
      · rw [if_pos halloc, Option.some.injEq] at hsome
        simp only [mbr_slot_allocated, Bool.and_eq_true, decide_eq_true_eq,
          mbr_start_lba, mbr_sector_count, mbr_system_id] at halloc
        exact ⟨k, hk, halloc.1.1, halloc.1.2, halloc.2, by
          rw [← hsome]
          simp [mk_partition, partition_devname, mbr_start_lba, mbr_sector_count,
            mbr_system_id]⟩
      · rw [if_neg halloc] at hsome
        exact absurd hsome (by simp)
    · rintro ⟨k, hk, h1, h2, h3, hp⟩
      refine ⟨k, hk, ?_⟩
      have halloc : mbr_slot_allocated s k = true := by
        simp [mbr_slot_allocated, mbr_start_lba, mbr_sector_count, mbr_system_id,
          h1, h2, h3]
      rw [if_pos halloc, Option.some.injEq, hp]
      simp [mk_partition, partition_devname, mbr_start_lba, mbr_sector_count,
        mbr_system_id]
  case isFalse hsig =>
    simp [hsig]

/-- C3 (confirmed): when the IST runs with ERROR or DEVICE_FAILURE set
in the status register it records error = 0x80000000 | (status << 16) |
ERR, transfers no data by PIO, and wakes the waiter; a read whose first
submission completes that way returns EIO to the block-device caller. -/
theorem claim_C3 (status err_reg blksz : Nat)
    (hs : status &&& (ATA_STATUS_FLAG_ERROR ||| ATA_STATUS_FLAG_DEVICE_FAILURE) ≠ 0)
    (oracle : Nat → chunk_outcome)
    (ho : oracle 0 = chunk_outcome.completed status err_reg)
    (dev : ata_device_handle) (nbyte : Nat) (b : Int)
    (hreach : (hdd_read oracle false dev nbyte b).2.2 ≠ []) :
    (hdc_ist status err_reg blksz).error =
      0x80000000 ||| (status <<< 16) ||| err_reg ∧
    (hdc_ist status err_reg blksz).pio_byte_count = 0 ∧
    (hdc_ist status err_reg blksz).wakes = true ∧
    (hdd_read oracle false dev nbyte b).1 = EIO_errno := by
  obtain ⟨hb, -, hn, -⟩ := hdd_read_trace_shape oracle false dev nbyte b hreach
  have herr : ∀ bz, hdd_rw_err (oracle 0) bz ≠ 0 := by
    intro bz h0
    rw [ho] at h0
    simp only [hdd_rw_err] at h0
    unfold hdc_ist at h0
    rw [if_pos hs] at h0
    have h0' : 0x80000000 ||| (status <<< 16) ||| err_reg = 0 := h0
    have h1 := ((or_eq_zero_iff_both _ _).1 h0').1
    have h2 := ((or_eq_zero_iff_both _ _).1 h1).1
    exact absurd h2 (by decide)
  refine ⟨by simp [hdc_ist, hs], by simp [hdc_ist, hs], by simp [hdc_ist, hs], ?_⟩
  rw [hdd_read_eq_loop oracle dev nbyte b hb,
    hdd_read_loop_error_step oracle 0 (adjust_blkno dev b).1 (nbyte / SECTOR_SIZE) 0
      hn (herr _)]

/-- Witness for C3: status 0x41 (ERROR set), ERR register 4, a
one-sector read at block 0 of the witness disk. -/
theorem claim_C3_witness :
    (hdc_ist 0x41 4 1).error = 0x80000000 ||| (0x41 <<< 16) ||| 4 ∧
    (hdc_ist 0x41 4 1).pio_byte_count = 0 ∧
    (hdc_ist 0x41 4 1).wakes = true ∧
    (hdd_read err_oracle false (ata_device_handle.wholedisk w_disk) 512 0).1 = EIO_errno :=
  claim_C3 0x41 4 1 (by decide) err_oracle rfl
    (ata_device_handle.wholedisk w_disk) 512 0
    (by
      rw [hdd_read_eq_loop err_oracle (ata_device_handle.wholedisk w_disk) 512 0
          (by decide),
        hdd_read_loop_error_step err_oracle 0 _ _ 0 (by decide) (by decide)]
      decide)

/-- The number of submissions of a fully successful run equals the
number of spec chunks. -/
theorem read_submissions_length (b : Int) (n : Nat) :
    (read_submissions b n).length = (n + 127) / 128 := by
  rw [← List.length_map (read_submissions b n) Prod.snd,
    read_submissions_counts, chunk_sizes_length]

/-- C4 (confirmed): a read that passes the bounds check, maps its
buffer, and whose chunks all succeed performs exactly
ceil((nbyte/512)/128) request-engine submissions, each asking for
min(remaining, 128) sectors, and the per-submission sector counts sum
to nbyte/512. -/
theorem claim_C4 (oracle : Nat → chunk_outcome)
    (hsucc : ∀ i bz, hdd_rw_err (oracle i) bz = 0)
    (dev : ata_device_handle) (nbyte : Nat) (b : Int)
    (hb : hdd_bounds_reject (adjust_blkno dev b).1 (nbyte / SECTOR_SIZE)
      (adjust_blkno dev b).2 = false) :
    ((hdd_read oracle false dev nbyte b).2.2).length = (nbyte / 512 + 127) / 128 ∧
    ((hdd_read oracle false dev nbyte b).2.2).map Prod.snd =
      chunk_sizes (nbyte / 512) ∧
    (((hdd_read oracle false dev nbyte b).2.2).map Prod.snd).sum = nbyte / 512 := by
  rw [hdd_read_eq_loop oracle dev nbyte b hb, hdd_read_loop_success oracle hsucc]
  have h512 : SECTOR_SIZE = 512 := rfl
  rw [h512]
  exact ⟨read_submissions_length _ _, read_submissions_counts _ _,
    by rw [read_submissions_counts, chunk_sizes_sum]⟩

/-- Witness for C4: a 129-sector (66048-byte) read at block 0 of the
witness disk under the always-succeeding oracle. -/
theorem claim_C4_witness :
    ((hdd_read ok_oracle false (ata_device_handle.wholedisk w_disk) 66048 0).2.2).length =
      (66048 / 512 + 127) / 128 ∧
    ((hdd_read ok_oracle false (ata_device_handle.wholedisk w_disk) 66048 0).2.2).map
      Prod.snd = chunk_sizes (66048 / 512) ∧
    (((hdd_read ok_oracle false (ata_device_handle.wholedisk w_disk) 66048 0).2.2).map
      Prod.snd).sum = 66048 / 512 :=
  claim_C4 ok_oracle (fun _ _ => rfl) (ata_device_handle.wholedisk w_disk) 66048 0
    (by decide)

/-- For any int b and u32 S, the C int sum of b and S lies in the
signed 32-bit range and is congruent to the mathematical sum b + S
modulo 2^32. -/
theorem u32ToInt_add_spec (b : Int) (S : Nat) :
    -(2 ^ 31) ≤ u32ToInt (intToU32 b + S) ∧
      u32ToInt (intToU32 b + S) < 2 ^ 31 ∧
      u32ToInt (intToU32 b + S) % 2 ^ 32 = (b + (S : Int)) % 2 ^ 32 := by
  simp only [u32ToInt, intToU32]
  split <;> refine ⟨by omega, by omega, by omega⟩

/-- Counterexample to C5 as stated: on the partition with
start_lba = 0xC0000000 and sector_count 100, a one-sector read at
caller block 2^30 rebases to 2^30 + 0xC0000000 = 2^32, which wraps to
0 in C int arithmetic; the bounds check then passes (0 + 1 < 100) and
the read reaches the hardware issued with LBA 0 — not
S + b = 2^32. -/
theorem claim_C5_counterexample :
    (hdd_read err_oracle false
      (ata_device_handle.partition w_disk wrap_part) 512 1073741824).2.2 =
      [(0, 1)] ∧
    (0 : Nat) ≠ 1073741824 + wrap_part.start_lba := by
  constructor
  · rw [hdd_read_eq_loop err_oracle (ata_device_handle.partition w_disk wrap_part)
        512 1073741824 (by decide),
      hdd_read_loop_error_step err_oracle 0 _ _ 0 (by decide) (by decide)]
    decide
  · decide

/-- C5 (amended): a read at caller block b of a partition with
start_lba S that reaches the hardware is issued (first submission)
with absolute LBA equal to (b + S) mod 2^32 — the rebased block number
computed in C int arithmetic, which equals S + b exactly when that sum
fits in a signed 32-bit int — while a whole-disk read at block b is
issued with LBA b, unadjusted.  The hypothesis says only that the
caller block number is a representable int. -/
theorem claim_C5 (disk : ata_disk) (p : ata_partition)
    (oracle : Nat → chunk_outcome) (map_fails : Bool) (nbyte : Nat) (b : Int)
    (hb2 : b < 2 ^ 31)
    (hpart : (hdd_read oracle map_fails
      (ata_device_handle.partition disk p) nbyte b).2.2 ≠ [])
    (hwhole : (hdd_read oracle map_fails
      (ata_device_handle.wholedisk disk) nbyte b).2.2 ≠ []) :
    (∃ c rest, (hdd_read oracle map_fails
        (ata_device_handle.partition disk p) nbyte b).2.2 =
      (((b + (p.start_lba : Int)) % 2 ^ 32).toNat, c) :: rest) ∧
    (∃ c rest, (hdd_read oracle map_fails
        (ata_device_handle.wholedisk disk) nbyte b).2.2 =
      (b.toNat, c) :: rest) := by
  obtain ⟨hbnd, -, -, c, rest, htr⟩ :=
    hdd_read_trace_shape oracle map_fails (ata_device_handle.partition disk p) nbyte b hpart
  obtain ⟨hbndw, -, -, cw, restw, htrw⟩ :=
    hdd_read_trace_shape oracle map_fails (ata_device_handle.wholedisk disk) nbyte b hwhole
  have hadj : (adjust_blkno (ata_device_handle.partition disk p) b).1 =
      u32ToInt (intToU32 b + p.start_lba) := by
    simp only [adjust_blkno]
  have hspec := u32ToInt_add_spec b p.start_lba
  have hpos : 0 ≤ u32ToInt (intToU32 b + p.start_lba) := by
    have hnn := bounds_ok_nonneg hbnd
    rw [hadj] at hnn
    exact hnn
  have hv : u32ToInt (intToU32 b + p.start_lba) = (b + (p.start_lba : Int)) % 2 ^ 32 := by
    omega
  constructor
  · refine ⟨c, rest, ?_⟩
    rw [htr, hadj, hv, intToU64_of_nonneg _ (by omega) (by omega)]
  · refine ⟨cw, restw, ?_⟩
    rw [htrw]
    have hposw : 0 ≤ (adjust_blkno (ata_device_handle.wholedisk disk) b).1 :=
      bounds_ok_nonneg hbndw
    simp only [adjust_blkno] at hposw ⊢
    rw [intToU64_of_nonneg b hposw hb2]

/-- Witness for C5 (amended): a one-sector read at caller block 0 of
the witness partition (start_lba 2048) is issued with LBA
(0 + 2048) mod 2^32 = 2048; at block 0 of the whole disk it is issued
with LBA 0. -/
theorem claim_C5_witness :
    (∃ c rest, (hdd_read err_oracle false
        (ata_device_handle.partition w_disk w_part) 512 0).2.2 =
      ((((0 : Int) + (w_part.start_lba : Int)) % 2 ^ 32).toNat, c) :: rest) ∧
    (∃ c rest, (hdd_read err_oracle false
        (ata_device_handle.wholedisk w_disk) 512 0).2.2 =
      ((0 : Int).toNat, c) :: rest) :=
  claim_C5 w_disk w_part err_oracle false 512 0 (by decide)
    (by
      rw [hdd_read_eq_loop err_oracle (ata_device_handle.partition w_disk w_part)
          512 0 (by decide),
        hdd_read_loop_error_step err_oracle 0 _ _ 0 (by decide) (by decide)]
      decide)
    (by
      rw [hdd_read_eq_loop err_oracle (ata_device_handle.wholedisk w_disk)
          512 0 (by decide),
        hdd_read_loop_error_step err_oracle 0 _ _ 0 (by decide) (by decide)]
      decide)

/-- The bounds test as a proposition. -/
theorem hdd_bounds_reject_iff (b : Int) (n l : Nat) :
    hdd_bounds_reject b n l = true ↔
      (b < 0 ∨ l ≤ wrap32 (intToU32 b + n)) := by
  simp [hdd_bounds_reject]

/-- Counterexample to C1 as stated: on the partition starting at
sector 5 with sector_count 10, a one-sector read at caller block 4
satisfies neither blkno < 0 nor blkno + nbyte/512 >= sector_count
(4 + 1 < 10), yet the driver returns EIO, because the source applies
the bounds test to the adjusted block number 4 + 5 = 9 and 9 + 1 >= 10. -/
theorem claim_C1_counterexample :
    (hdd_read ok_oracle false
      (ata_device_handle.partition w_disk small_part) 512 4).1 = EIO_errno ∧
    ¬((4 : Int) < 0 ∨
      ((small_part.sector_count : Nat) : Int) ≤ 4 + ((512 / 512 : Nat) : Int)) := by
  constructor
  · decide
  · decide

/-- C1 (amended): provided the user buffer maps and every issued chunk
completes without device error, read returns EIO iff the ADJUSTED block
number is negative or adjusted + nbyte/512 reaches the limit in
unsigned 32-bit arithmetic, where for a whole disk the adjusted number
is the caller's blkno and the limit the low 32 bits of
addressable_sector_count, and for a partition the adjusted number is
blkno + start_lba in C int arithmetic and the limit the partition's
sector_count. -/
theorem claim_C1 (oracle : Nat → chunk_outcome)
    (hsucc : ∀ i bz, hdd_rw_err (oracle i) bz = 0)
    (dev : ata_device_handle) (nbyte : Nat) (b : Int) :
    (hdd_read oracle false dev nbyte b).1 = EIO_errno ↔
      ((adjust_blkno dev b).1 < 0 ∨
        (adjust_blkno dev b).2 ≤
          wrap32 (intToU32 (adjust_blkno dev b).1 + nbyte / SECTOR_SIZE)) := by
  by_cases hb : hdd_bounds_reject (adjust_blkno dev b).1 (nbyte / SECTOR_SIZE)
      (adjust_blkno dev b).2
  · constructor
    · intro _
      exact (hdd_bounds_reject_iff _ _ _).1 hb
    · intro _
      simp [hdd_read, hb]
  · rw [hdd_read_eq_loop oracle dev nbyte b (by simpa using hb),
      hdd_read_loop_success oracle hsucc]
    constructor
    · intro h0
      simp [EIO_errno] at h0
    · intro hc
      exact absurd ((hdd_bounds_reject_iff _ _ _).2 hc) hb

/-- Witness for C1 (amended): a one-sector read at block 0 of the
witness disk under the always-succeeding oracle; neither side of the
equivalence holds. -/
theorem claim_C1_witness :
    (hdd_read ok_oracle false (ata_device_handle.wholedisk w_disk) 512 0).1 = EIO_errno ↔
      ((adjust_blkno (ata_device_handle.wholedisk w_disk) 0).1 < 0 ∨
        (adjust_blkno (ata_device_handle.wholedisk w_disk) 0).2 ≤
          wrap32 (intToU32 (adjust_blkno (ata_device_handle.wholedisk w_disk) 0).1 +
            512 / SECTOR_SIZE)) :=
  claim_C1 ok_oracle (fun _ _ => rfl) (ata_device_handle.wholedisk w_disk) 512 0

/-- Counterexample to C6 as stated: a two-sector read at caller block
-1 of the witness disk fails the bounds check and returns EIO; the
transferred prefix is zero bytes, but *nbyte is left at the
caller-supplied 1024 rather than being updated to 0. -/
theorem claim_C6_counterexample :
    hdd_read ok_oracle false (ata_device_handle.wholedisk w_disk) 1024 (-1) =
      (EIO_errno, 1024, []) ∧
    (1024 : Nat) ≠ 0 := by
  constructor
  · decide
  · decide

/-- C6 (amended): on a failed read the final *nbyte is the
caller-supplied value, untouched, when the failure is the bounds check
or the user-buffer mapping; it is the byte count of the successfully
completed prefix of chunks when the failure occurs mid-transfer. -/
theorem claim_C6 (oracle : Nat → chunk_outcome) (map_fails : Bool)
    (dev : ata_device_handle) (nbyte : Nat) (b : Int)
    (hfail : (hdd_read oracle map_fails dev nbyte b).1 ≠ 0) :
    (hdd_read oracle map_fails dev nbyte b).2.1 =
      if hdd_bounds_reject (adjust_blkno dev b).1 (nbyte / SECTOR_SIZE)
          (adjust_blkno dev b).2 || map_fails then nbyte
      else prefix_bytes oracle 0 (nbyte / SECTOR_SIZE) := by
  by_cases hb : hdd_bounds_reject (adjust_blkno dev b).1 (nbyte / SECTOR_SIZE)
      (adjust_blkno dev b).2
  · simp [hdd_read, hb]
  · by_cases hm : map_fails
    · simp [hdd_read, hb, hm]
    · rw [Bool.not_eq_true] at hm
      subst hm
      simp only [hb, Bool.or_false, Bool.false_eq_true, if_false]
      rw [hdd_read_eq_loop oracle dev nbyte b (by simpa using hb),
        hdd_read_loop_nbyte]
      simp

/-- Witness for C6 (amended): the bounds-rejected read at block -1
leaves *nbyte at 1024. -/
theorem claim_C6_witness :
    (hdd_read ok_oracle false (ata_device_handle.wholedisk w_disk) 1024 (-1)).2.1 =
      if hdd_bounds_reject
          (adjust_blkno (ata_device_handle.wholedisk w_disk) (-1)).1
          (1024 / SECTOR_SIZE)
          (adjust_blkno (ata_device_handle.wholedisk w_disk) (-1)).2 || false then 1024
      else prefix_bytes ok_oracle 0 (1024 / SECTOR_SIZE) :=
  claim_C6 ok_oracle false (ata_device_handle.wholedisk w_disk) 1024 (-1) (by decide)

/-- Counterexample to C10 as stated: a read of 1124 bytes at block 0 of
the witness disk passes the bounds check and the buffer mapping, but
its first (and only) chunk completes with ERROR set, so only 0 bytes
are transferred and *nbyte is set to 0, not to floor(1124/512)*512 =
1024. -/
theorem claim_C10_counterexample :
    hdd_bounds_reject
      (adjust_blkno (ata_device_handle.wholedisk w_disk) 0).1 (1124 / SECTOR_SIZE)
      (adjust_blkno (ata_device_handle.wholedisk w_disk) 0).2 = false ∧
    (hdd_read err_oracle false (ata_device_handle.wholedisk w_disk) 1124 0).2.1 = 0 ∧
    (0 : Nat) ≠ 1124 / 512 * 512 := by
  refine ⟨by decide, ?_, by decide⟩
  rw [hdd_read_eq_loop err_oracle (ata_device_handle.wholedisk w_disk) 1124 0
      (by decide),
    hdd_read_loop_error_step err_oracle 0 _ _ 0 (by decide) (by decide)]

/-- C10 (amended): for nbyte not a multiple of 512, a read that passes
the bounds check and the buffer mapping and whose chunks all succeed
returns 0 and transfers exactly floor(nbyte/512)*512 bytes, setting
*nbyte to that value; moreover for nbyte < 512 (under the same bounds
and mapping conditions, for any hardware behaviour) no command is
issued and the read returns 0 with *nbyte set to 0. -/
theorem claim_C10 (oracle : Nat → chunk_outcome) (dev : ata_device_handle)
    (nbyte : Nat) (b : Int)
    (hmul : nbyte % SECTOR_SIZE ≠ 0)
    (hb : hdd_bounds_reject (adjust_blkno dev b).1 (nbyte / SECTOR_SIZE)
      (adjust_blkno dev b).2 = false)
    (hsucc : ∀ i bz, hdd_rw_err (oracle i) bz = 0) :
    ((hdd_read oracle false dev nbyte b).1 = 0 ∧
      (hdd_read oracle false dev nbyte b).2.1 = nbyte / 512 * 512) ∧
    (∀ oracle2 : Nat → chunk_outcome, nbyte < SECTOR_SIZE →
      hdd_read oracle2 false dev nbyte b = (0, 0, [])) := by
  constructor
  · rw [hdd_read_eq_loop oracle dev nbyte b hb, hdd_read_loop_success oracle hsucc]
    refine ⟨rfl, ?_⟩
    show 0 + SECTOR_SIZE * (nbyte / SECTOR_SIZE) = nbyte / 512 * 512
    have h512 : SECTOR_SIZE = 512 := rfl
    rw [h512]
    omega
  · intro oracle2 hlt
    have hn : nbyte / SECTOR_SIZE = 0 := Nat.div_eq_of_lt hlt
    rw [hdd_read_eq_loop oracle2 dev nbyte b hb, hn, hdd_read_loop_zero]

/-- Witness for C10 (amended): a 100-byte read at block 0 of the
witness disk issues nothing and returns 0 with *nbyte = 0. -/
theorem claim_C10_witness :
    ((hdd_read ok_oracle false (ata_device_handle.wholedisk w_disk) 100 0).1 = 0 ∧
      (hdd_read ok_oracle false (ata_device_handle.wholedisk w_disk) 100 0).2.1 =
        100 / 512 * 512) ∧
    (∀ oracle2 : Nat → chunk_outcome, 100 < SECTOR_SIZE →
      hdd_read oracle2 false (ata_device_handle.wholedisk w_disk) 100 0 =
        (0, 0, [])) :=
  claim_C10 ok_oracle (ata_device_handle.wholedisk w_disk) 100 0 (by decide)
    (by decide) (fun _ _ => rfl)

end Hdd
